import Mathlib

/-!
# golang-ninja: storage-backend factory and PaymentsService gRPC stubs

A shallow embedding of

* `Cloud-Native-programming/Chapter02/myevents/src/lib/persistence/dblayer/dblayer.go`
* `Event-Driven-Architecture-in-Golang/Chapter09/payments/paymentspb/api_grpc.pb.go`

Go conventions used throughout:

* a nilable pointer `*T` is `Option T` (`none` is `nil`);
* a Go result pair `(x, err)` is a Lean pair whose second component is
  `Option GoError` (`none` is the nil error);
* code with side effects is written in state-passing style over a world `σ`:
  a call takes the world before it and returns its results with the world
  after it;
* an object a callee fills through a pointer (`dec(in)`, the `reply` of
  `Invoke`) is passed by value and the filled value is returned.
-/

namespace GolangNinja

/-! ## dblayer -/

namespace dblayer

/-- Go: `type DBTYPE string`. -/
abbrev DBTYPE := String

/-- Go: `MONGODB DBTYPE = "mongodb"`. -/
def MONGODB : DBTYPE := "mongodb"

/-- Go: `DOCUMENTDB DBTYPE = "documentdb"`. -/
def DOCUMENTDB : DBTYPE := "documentdb"

/-- Go: `DYNAMODB DBTYPE = "dynamodb"`. -/
def DYNAMODB : DBTYPE := "dynamodb"

/-- Go: `NewPersistenceLayer(options DBTYPE, connection string)
(persistence.DatabaseHandler, error)`.

`mongolayer.NewMongoDBLayer` lives in another package and is taken as the
parameter `NewMongoDBLayer`; `H` is the type of non-nil database handlers and
`E` the type of non-nil errors.  The `switch` has the single case `MONGODB`;
every other value falls through to `return nil, nil`. -/
def NewPersistenceLayer {H E : Type} (NewMongoDBLayer : String → Option H × Option E)
    (options : DBTYPE) (connection : String) : Option H × Option E :=
  if options = MONGODB then
    NewMongoDBLayer connection
  else
    (none, none)

end dblayer

/-! ## paymentspb: vocabulary -/

namespace paymentspb

/-- The six remote procedures of `PaymentsService`.  The generated file has,
for each of them, a request message type `*XRequest` and a response message
type `*XResponse` (declared in `api.pb.go`); they are the families `Req` and
`Resp` indexed by this type. -/
inductive RPC
  | AuthorizePayment
  | ConfirmPayment
  | CreateInvoice
  | AdjustInvoice
  | PayInvoice
  | CancelInvoice
  deriving DecidableEq, Repr

/-- All six procedures, in the order of the source file. -/
def RPC.all : List RPC :=
  [.AuthorizePayment, .ConfirmPayment, .CreateInvoice, .AdjustInvoice, .PayInvoice,
   .CancelInvoice]

/-- The status codes of `google.golang.org/grpc/codes`. -/
inductive Code
  | OK
  | Canceled
  | Unknown
  | InvalidArgument
  | DeadlineExceeded
  | NotFound
  | AlreadyExists
  | PermissionDenied
  | ResourceExhausted
  | FailedPrecondition
  | Aborted
  | OutOfRange
  | Unimplemented
  | Internal
  | Unavailable
  | DataLoss
  | Unauthenticated
  deriving DecidableEq, Repr

/-- Modelled from the spec: the error kinds of section 7 (error handling
design).  No code of the repository under `src/` declares them. -/
inductive ErrorKind
  | ValidationError
  | InvalidState
  | VersionConflict
  | OverpaymentError
  | AlreadyConfirmed
  | IdempotentReplay
  | IdempotencyConflict
  | PartialCommitError
  | NotFound
  deriving DecidableEq, Repr

/-- A non-nil Go `error` value: a gRPC status error (what `status.Errorf`
builds), an error of one of the specification's kinds, or any other error. -/
inductive GoError
  | status (code : Code) (message : String)
  | domain (kind : ErrorKind)
  | other (text : String)
  deriving DecidableEq, Repr

/-- The specification's kind of an error, when it has one.  A gRPC status
error built by the generated stubs carries a status code and no kind. -/
def GoError.kind? : GoError → Option ErrorKind
  | .domain k => some k
  | .status _ _ => none
  | .other _ => none

/-- The status code of an error, when it is a status error. -/
def GoError.code? : GoError → Option Code
  | .status c _ => some c
  | .domain _ => none
  | .other _ => none

/-! `fmt.Sprintf(format)` called with no operands, after `doPrintf` of the Go
standard library.  A format is read as its list of characters; every function
below hands back the characters it has not consumed. -/

/-- The flag characters `doPrintf` skips after a `%`. -/
def isFlagChar (c : Char) : Bool :=
  c == '#' || c == '0' || c == '+' || c == '-' || c == ' '

/-- The flags loop of `doPrintf`: with no operand left there is no fast path,
so it stops at the first character that is not a flag. -/
def skipFlags : List Char → List Char
  | [] => []
  | c :: rest => if isFlagChar c then skipFlags rest else c :: rest

/-- Go `parsenum`: reads decimal digits; returns whether it read a number, and
the characters left.  A number past 1e6 with a further digit gives up: no
number, and nothing left. -/
def parsenum (num : Nat) (isnum : Bool) : List Char → Bool × List Char
  | [] => (isnum, [])
  | c :: rest =>
    if c.isDigit then
      if 1000000 < num then (false, [])
      else parsenum (num * 10 + (c.toNat - '0'.toNat)) true rest
    else (isnum, c :: rest)

/-- The characters before the first `]` and the characters after it. -/
def untilBracket : List Char → Option (List Char × List Char)
  | [] => none
  | c :: rest =>
    if c == ']' then some ([], rest)
    else
      match untilBracket rest with
      | none => none
      | some (inside, after) => some (c :: inside, after)

/-- Go `argNumber` with no operands: returns whether a well-formed index `[n]`
was read, whether a `[` was seen at all (with no operands every index is bad),
and the characters left.  `parseArgNumber` skips the lone `[` when the rest of
the format is shorter than three bytes or has no `]`, and the whole bracket
otherwise. -/
def argNumber : List Char → Bool × Bool × List Char
  | '[' :: rest =>
    if rest = [']'] then (false, true, rest)
    else
      match untilBracket rest with
      | none => (false, true, rest)
      | some (inside, after) =>
        ((parsenum 0 false inside).1 && (parsenum 0 false inside).2.isEmpty, true, after)
  | cs => (false, false, cs)

/-- The width step of `doPrintf`: what it prints, whether an index was just
read, and the characters left.  A `*` has no operand to take the width from. -/
def widthPart (afterIndex : Bool) : List Char → List Char × Bool × List Char
  | '*' :: rest => ("%!(BADWIDTH)".toList, false, rest)
  | cs => ([], afterIndex, (parsenum 0 false cs).2)

/-- The precision step of `doPrintf`: what it prints, whether an index was just
read, whether a `[` was seen, and the characters left. -/
def precisionPart (afterIndex : Bool) : List Char → List Char × Bool × Bool × List Char
  | '.' :: rest =>
    match (argNumber rest).2.2 with
    | '*' :: rest1 => ("%!(BADPREC)".toList, false, (argNumber rest).2.1, rest1)
    | rest1 => ([], (argNumber rest).1, (argNumber rest).2.1, (parsenum 0 false rest1).2)
  | cs => ([], afterIndex, false, cs)

/-- One verb of `doPrintf` with no operands, from the character after the `%`:
what is printed and the characters left.  `%%` (flags, width and precision
ignored) prints `%`; the end of the format prints `%!(NOVERB)`; a verb after a
`[` prints `%!v(BADINDEX)`; any other verb prints `%!v(MISSING)`. -/
def printVerb (cs : List Char) : List Char × List Char :=
  let a1 := argNumber (skipFlags cs)
  let w := widthPart a1.1 a1.2.2
  let p := precisionPart w.2.1 w.2.2
  let a3 := if p.2.1 then (false, false, p.2.2.2) else argNumber p.2.2.2
  let bad := a1.2.1 || p.2.2.1 || a3.2.1
  match a3.2.2 with
  | [] => (w.1 ++ p.1 ++ "%!(NOVERB)".toList, [])
  | v :: rest =>
    if v == '%' then (w.1 ++ p.1 ++ ['%'], rest)
    else if bad then (w.1 ++ p.1 ++ '%' :: '!' :: v :: "(BADINDEX)".toList, rest)
    else (w.1 ++ p.1 ++ '%' :: '!' :: v :: "(MISSING)".toList, rest)

/-- The format loop of `doPrintf` with no operands: characters other than `%`
are copied, a `%` starts a verb.  Every round consumes a character, so a fuel
of the length of the format is never used up. -/
def sprintfChars : Nat → List Char → List Char
  | 0, _ => []
  | _ + 1, [] => []
  | fuel + 1, c :: rest =>
    if c == '%' then (printVerb rest).1 ++ sprintfChars fuel (printVerb rest).2
    else c :: sprintfChars fuel rest

/-- `fmt.Sprintf(format)` with no operands. -/
def Sprintf (format : String) : String :=
  String.mk (sprintfChars format.length format.toList)

/-- `status.Errorf(c, format)` of `google.golang.org/grpc/status` with no
operands: `Error(c, fmt.Sprintf(format))`, which is the nil error for
`codes.OK` and a status error otherwise. -/
def status.Errorf (c : Code) (format : String) : Option GoError :=
  if c = Code.OK then none else some (GoError.status c (Sprintf format))

/-- A Go `interface{}` value as it occurs in the generated code: the nil
interface, or a pointer (possibly nil) to a request or response message. -/
inductive Any (Req Resp : RPC → Type)
  | nil
  | request (m : RPC) (p : Option (Req m))
  | response (m : RPC) (p : Option (Resp m))


/-! ## paymentspb: client stubs -/

section Client

variable {Ctx Opt σ : Type} {Req Resp : RPC → Type}

/-- Go: `grpc.ClientConnInterface`, restricted to `Invoke` (the only method the
stubs use): `Invoke(ctx, method, args, reply, opts...) error`.  `reply` points
to a response message of procedure `m`; the call returns the error and the
contents of that message after the call. -/
structure ClientConnInterface (Ctx Opt σ : Type) (Req Resp : RPC → Type) where
  Invoke : Ctx → String → Any Req Resp → (m : RPC) → Resp m → List Opt → σ →
    (Option GoError × Resp m) × σ

/-- Go: `type paymentsServiceClient struct { cc grpc.ClientConnInterface }`. -/
structure paymentsServiceClient (Ctx Opt σ : Type) (Req Resp : RPC → Type) where
  cc : ClientConnInterface Ctx Opt σ Req Resp

/-- The result type of the client method of procedure `m`: `(*XResponse, error)`
and the world after the call. -/
abbrev ClientResult (σ : Type) (Resp : RPC → Type) (m : RPC) :=
  (Option (Resp m) × Option GoError) × σ

/-- Go: `func (c *paymentsServiceClient) AuthorizePayment(ctx, in, opts...)`. -/
def paymentsServiceClient.AuthorizePayment [∀ m, Inhabited (Resp m)]
    (c : paymentsServiceClient Ctx Opt σ Req Resp) (ctx : Ctx)
    (inp : Option (Req .AuthorizePayment)) (opts : List Opt) (s : σ) :
    ClientResult σ Resp .AuthorizePayment :=
  let out : Resp .AuthorizePayment := default
  match c.cc.Invoke ctx "/paymentspb.PaymentsService/AuthorizePayment"
      (.request .AuthorizePayment inp) .AuthorizePayment out opts s with
  | ((some err, _), s1) => ((none, some err), s1)
  | ((none, out1), s1) => ((some out1, none), s1)

/-- Go: `func (c *paymentsServiceClient) ConfirmPayment(ctx, in, opts...)`. -/
def paymentsServiceClient.ConfirmPayment [∀ m, Inhabited (Resp m)]
    (c : paymentsServiceClient Ctx Opt σ Req Resp) (ctx : Ctx)
    (inp : Option (Req .ConfirmPayment)) (opts : List Opt) (s : σ) :
    ClientResult σ Resp .ConfirmPayment :=
  let out : Resp .ConfirmPayment := default
  match c.cc.Invoke ctx "/paymentspb.PaymentsService/ConfirmPayment"
      (.request .ConfirmPayment inp) .ConfirmPayment out opts s with
  | ((some err, _), s1) => ((none, some err), s1)
  | ((none, out1), s1) => ((some out1, none), s1)

/-- Go: `func (c *paymentsServiceClient) CreateInvoice(ctx, in, opts...)`. -/
def paymentsServiceClient.CreateInvoice [∀ m, Inhabited (Resp m)]
    (c : paymentsServiceClient Ctx Opt σ Req Resp) (ctx : Ctx)
    (inp : Option (Req .CreateInvoice)) (opts : List Opt) (s : σ) :
    ClientResult σ Resp .CreateInvoice :=
  let out : Resp .CreateInvoice := default
  match c.cc.Invoke ctx "/paymentspb.PaymentsService/CreateInvoice"
      (.request .CreateInvoice inp) .CreateInvoice out opts s with
  | ((some err, _), s1) => ((none, some err), s1)
  | ((none, out1), s1) => ((some out1, none), s1)

/-- Go: `func (c *paymentsServiceClient) AdjustInvoice(ctx, in, opts...)`. -/
def paymentsServiceClient.AdjustInvoice [∀ m, Inhabited (Resp m)]
    (c : paymentsServiceClient Ctx Opt σ Req Resp) (ctx : Ctx)
    (inp : Option (Req .AdjustInvoice)) (opts : List Opt) (s : σ) :
    ClientResult σ Resp .AdjustInvoice :=
  let out : Resp .AdjustInvoice := default
  match c.cc.Invoke ctx "/paymentspb.PaymentsService/AdjustInvoice"
      (.request .AdjustInvoice inp) .AdjustInvoice out opts s with
  | ((some err, _), s1) => ((none, some err), s1)
  | ((none, out1), s1) => ((some out1, none), s1)

/-- Go: `func (c *paymentsServiceClient) PayInvoice(ctx, in, opts...)`. -/
def paymentsServiceClient.PayInvoice [∀ m, Inhabited (Resp m)]
    (c : paymentsServiceClient Ctx Opt σ Req Resp) (ctx : Ctx)
    (inp : Option (Req .PayInvoice)) (opts : List Opt) (s : σ) :
    ClientResult σ Resp .PayInvoice :=
  let out : Resp .PayInvoice := default
  match c.cc.Invoke ctx "/paymentspb.PaymentsService/PayInvoice"
      (.request .PayInvoice inp) .PayInvoice out opts s with
  | ((some err, _), s1) => ((none, some err), s1)
  | ((none, out1), s1) => ((some out1, none), s1)

/-- Go: `func (c *paymentsServiceClient) CancelInvoice(ctx, in, opts...)`. -/
def paymentsServiceClient.CancelInvoice [∀ m, Inhabited (Resp m)]
    (c : paymentsServiceClient Ctx Opt σ Req Resp) (ctx : Ctx)
    (inp : Option (Req .CancelInvoice)) (opts : List Opt) (s : σ) :
    ClientResult σ Resp .CancelInvoice :=
  let out : Resp .CancelInvoice := default
  match c.cc.Invoke ctx "/paymentspb.PaymentsService/CancelInvoice"
      (.request .CancelInvoice inp) .CancelInvoice out opts s with
  | ((some err, _), s1) => ((none, some err), s1)
  | ((none, out1), s1) => ((some out1, none), s1)

/-- Go: `type PaymentsServiceClient interface`, one field per method. -/
structure PaymentsServiceClient (Ctx Opt σ : Type) (Req Resp : RPC → Type) where
  AuthorizePayment : Ctx → Option (Req .AuthorizePayment) → List Opt → σ →
    ClientResult σ Resp .AuthorizePayment
  ConfirmPayment : Ctx → Option (Req .ConfirmPayment) → List Opt → σ →
    ClientResult σ Resp .ConfirmPayment
  CreateInvoice : Ctx → Option (Req .CreateInvoice) → List Opt → σ →
    ClientResult σ Resp .CreateInvoice
  AdjustInvoice : Ctx → Option (Req .AdjustInvoice) → List Opt → σ →
    ClientResult σ Resp .AdjustInvoice
  PayInvoice : Ctx → Option (Req .PayInvoice) → List Opt → σ →
    ClientResult σ Resp .PayInvoice
  CancelInvoice : Ctx → Option (Req .CancelInvoice) → List Opt → σ →
    ClientResult σ Resp .CancelInvoice

/-- Go: `func NewPaymentsServiceClient(cc grpc.ClientConnInterface)
PaymentsServiceClient`: the struct `&paymentsServiceClient{cc}` seen through
the interface. -/
def NewPaymentsServiceClient [∀ m, Inhabited (Resp m)]
    (cc : ClientConnInterface Ctx Opt σ Req Resp) : PaymentsServiceClient Ctx Opt σ Req Resp :=
  ⟨paymentsServiceClient.AuthorizePayment ⟨cc⟩,
   paymentsServiceClient.ConfirmPayment ⟨cc⟩,
   paymentsServiceClient.CreateInvoice ⟨cc⟩,
   paymentsServiceClient.AdjustInvoice ⟨cc⟩,
   paymentsServiceClient.PayInvoice ⟨cc⟩,
   paymentsServiceClient.CancelInvoice ⟨cc⟩⟩

/-- One `Invoke` as a connection sees it: the context, the method path, the
request, the reply object handed over to be filled, and the call options. -/
structure InvokeCall (Ctx Opt : Type) (Req Resp : RPC → Type) where
  ctx : Ctx
  method : String
  args : Any Req Resp
  reply : Any Req Resp
  opts : List Opt

/-- A connection that behaves like `cc` and appends every `Invoke` it receives
to a log kept beside the world of `cc`. -/
def recording (cc : ClientConnInterface Ctx Opt σ Req Resp) :
    ClientConnInterface Ctx Opt (σ × List (InvokeCall Ctx Opt Req Resp)) Req Resp :=
  ⟨fun ctx method args m reply opts s =>
    ((cc.Invoke ctx method args m reply opts s.1).1,
     ((cc.Invoke ctx method args m reply opts s.1).2,
      s.2 ++ [⟨ctx, method, args, .response m (some reply), opts⟩]))⟩

/-- What a client stub must return once `Invoke` has returned `r`: `(nil, err)`
for a non-nil error, otherwise the filled reply object and the nil error. -/
def exchangeResult {m : RPC} (r : Option GoError × Resp m) : Option (Resp m) × Option GoError :=
  match r.1 with
  | some err => (none, some err)
  | none => (some r.2, none)

/-- A client method `stub` of procedure `m` is a single exchange on path `path`:
run on the recording connection over any `cc` it logs exactly one `Invoke`,
with the caller's context, request and options and a fresh reply object, leaves
the world as that one `Invoke` left it, returns what `exchangeResult` says, and
so returns exactly one of a response and an error. -/
def SingleExchange [∀ m, Inhabited (Resp m)] (m : RPC) (path : String)
    (cc : ClientConnInterface Ctx Opt σ Req Resp)
    (stub : Ctx → Option (Req m) → List Opt → σ × List (InvokeCall Ctx Opt Req Resp) →
      ClientResult (σ × List (InvokeCall Ctx Opt Req Resp)) Resp m) : Prop :=
  ∀ (ctx : Ctx) (inp : Option (Req m)) (opts : List Opt) (s : σ)
    (log : List (InvokeCall Ctx Opt Req Resp)),
    stub ctx inp opts (s, log) =
      (exchangeResult (cc.Invoke ctx path (.request m inp) m default opts s).1,
       ((cc.Invoke ctx path (.request m inp) m default opts s).2,
        log ++ [⟨ctx, path, .request m inp, .response m (some default), opts⟩]))
    ∧ ((stub ctx inp opts (s, log)).1.1.isSome ↔ (stub ctx inp opts (s, log)).1.2 = none)

end Client

/-! ## paymentspb: server interface and the unimplemented server -/

section Server

variable {Ctx σ : Type} {Req Resp : RPC → Type}

/-- The result type of the server method of procedure `m`: `(*XResponse, error)`
and the world after the call. -/
abbrev ServerResult (σ : Type) (Resp : RPC → Type) (m : RPC) :=
  (Option (Resp m) × Option GoError) × σ

/-- Go: `type PaymentsServiceServer interface`, one field per RPC method.  The
seventh method, `mustEmbedUnimplementedPaymentsServiceServer()`, takes and
returns nothing and has an empty body; it is the field `mustEmbed`. -/
structure PaymentsServiceServer (Ctx σ : Type) (Req Resp : RPC → Type) where
  AuthorizePayment : Ctx → Option (Req .AuthorizePayment) → σ →
    ServerResult σ Resp .AuthorizePayment
  ConfirmPayment : Ctx → Option (Req .ConfirmPayment) → σ →
    ServerResult σ Resp .ConfirmPayment
  CreateInvoice : Ctx → Option (Req .CreateInvoice) → σ →
    ServerResult σ Resp .CreateInvoice
  AdjustInvoice : Ctx → Option (Req .AdjustInvoice) → σ →
    ServerResult σ Resp .AdjustInvoice
  PayInvoice : Ctx → Option (Req .PayInvoice) → σ →
    ServerResult σ Resp .PayInvoice
  CancelInvoice : Ctx → Option (Req .CancelInvoice) → σ →
    ServerResult σ Resp .CancelInvoice
  mustEmbed : Unit

/-- Go: `func (UnimplementedPaymentsServiceServer) AuthorizePayment(context.Context,
*AuthorizePaymentRequest) (*AuthorizePaymentResponse, error)`. -/
def UnimplementedPaymentsServiceServer.AuthorizePayment (_ctx : Ctx)
    (_req : Option (Req .AuthorizePayment)) (s : σ) : ServerResult σ Resp .AuthorizePayment :=
  ((none, status.Errorf Code.Unimplemented "method AuthorizePayment not implemented"), s)

/-- Go: `func (UnimplementedPaymentsServiceServer) ConfirmPayment(context.Context,
*ConfirmPaymentRequest) (*ConfirmPaymentResponse, error)`. -/
def UnimplementedPaymentsServiceServer.ConfirmPayment (_ctx : Ctx)
    (_req : Option (Req .ConfirmPayment)) (s : σ) : ServerResult σ Resp .ConfirmPayment :=
  ((none, status.Errorf Code.Unimplemented "method ConfirmPayment not implemented"), s)

/-- Go: `func (UnimplementedPaymentsServiceServer) CreateInvoice(context.Context,
*CreateInvoiceRequest) (*CreateInvoiceResponse, error)`. -/
def UnimplementedPaymentsServiceServer.CreateInvoice (_ctx : Ctx)
    (_req : Option (Req .CreateInvoice)) (s : σ) : ServerResult σ Resp .CreateInvoice :=
  ((none, status.Errorf Code.Unimplemented "method CreateInvoice not implemented"), s)

/-- Go: `func (UnimplementedPaymentsServiceServer) AdjustInvoice(context.Context,
*AdjustInvoiceRequest) (*AdjustInvoiceResponse, error)`. -/
def UnimplementedPaymentsServiceServer.AdjustInvoice (_ctx : Ctx)
    (_req : Option (Req .AdjustInvoice)) (s : σ) : ServerResult σ Resp .AdjustInvoice :=
  ((none, status.Errorf Code.Unimplemented "method AdjustInvoice not implemented"), s)

/-- Go: `func (UnimplementedPaymentsServiceServer) PayInvoice(context.Context,
*PayInvoiceRequest) (*PayInvoiceResponse, error)`. -/
def UnimplementedPaymentsServiceServer.PayInvoice (_ctx : Ctx)
    (_req : Option (Req .PayInvoice)) (s : σ) : ServerResult σ Resp .PayInvoice :=
  ((none, status.Errorf Code.Unimplemented "method PayInvoice not implemented"), s)

/-- Go: `func (UnimplementedPaymentsServiceServer) CancelInvoice(context.Context,
*CancelInvoiceRequest) (*CancelInvoiceResponse, error)`. -/
def UnimplementedPaymentsServiceServer.CancelInvoice (_ctx : Ctx)
    (_req : Option (Req .CancelInvoice)) (s : σ) : ServerResult σ Resp .CancelInvoice :=
  ((none, status.Errorf Code.Unimplemented "method CancelInvoice not implemented"), s)

/-- Go: `type UnimplementedPaymentsServiceServer struct {}` seen through the
interface `PaymentsServiceServer`. -/
def UnimplementedPaymentsServiceServer : PaymentsServiceServer Ctx σ Req Resp :=
  ⟨UnimplementedPaymentsServiceServer.AuthorizePayment,
   UnimplementedPaymentsServiceServer.ConfirmPayment,
   UnimplementedPaymentsServiceServer.CreateInvoice,
   UnimplementedPaymentsServiceServer.AdjustInvoice,
   UnimplementedPaymentsServiceServer.PayInvoice,
   UnimplementedPaymentsServiceServer.CancelInvoice,
   ()⟩

end Server

/-! ## paymentspb: server handlers -/

section Handlers

variable {Ctx σ : Type} {Req Resp : RPC → Type}

/-- What a handler call comes to: it returns a Go pair `(interface{}, error)`,
or it panics (a failed type assertion `req.(*XRequest)`). -/
inductive Outcome (Req Resp : RPC → Type)
  | ret (v : Any Req Resp) (err : Option GoError)
  | panicked

/-- Go: `grpc.UnaryHandler`, `func(ctx, req interface{}) (interface{}, error)`. -/
abbrev UnaryHandler (Ctx σ : Type) (Req Resp : RPC → Type) :=
  Ctx → Any Req Resp → σ → Outcome Req Resp × σ

/-- Go: `grpc.UnaryServerInfo`. -/
structure UnaryServerInfo (Ctx σ : Type) (Req Resp : RPC → Type) where
  Server : PaymentsServiceServer Ctx σ Req Resp
  FullMethod : String

/-- Go: `grpc.UnaryServerInterceptor`,
`func(ctx, req interface{}, info *UnaryServerInfo, handler UnaryHandler)
(interface{}, error)`. -/
abbrev UnaryServerInterceptor (Ctx σ : Type) (Req Resp : RPC → Type) :=
  Ctx → Any Req Resp → UnaryServerInfo Ctx σ Req Resp → UnaryHandler Ctx σ Req Resp → σ →
    Outcome Req Resp × σ

/-- Go: the decode function `dec func(interface{}) error` a handler receives.
The handler of procedure `m` passes it a pointer to a fresh `XRequest`; the call
returns the error and the contents of that request after the call. -/
abbrev Decoder (σ : Type) (Req : RPC → Type) :=
  (m : RPC) → Req m → σ → (Option GoError × Req m) × σ

/-- The Go conversion of a server method's `(*XResponse, error)` to the
handler's `(interface{}, error)`. -/
def toOutcome (m : RPC) (r : ServerResult σ Resp m) : Outcome Req Resp × σ :=
  (.ret (.response m r.1.1) r.1.2, r.2)

/-- Go: the type of a `grpc.MethodDesc` handler,
`func(srv interface{}, ctx, dec, interceptor) (interface{}, error)`.  `srv` is
a `PaymentsServiceServer`: `grpc.RegisterService` admits no other server for
this service, so the assertion `srv.(PaymentsServiceServer)` succeeds.  A nil
interceptor is `none`. -/
abbrev MethodHandler (Ctx σ : Type) (Req Resp : RPC → Type) :=
  PaymentsServiceServer Ctx σ Req Resp → Ctx → Decoder σ Req →
    Option (UnaryServerInterceptor Ctx σ Req Resp) → σ → Outcome Req Resp × σ

/-- Go: `func _PaymentsService_AuthorizePayment_Handler(srv, ctx, dec, interceptor)`. -/
def _PaymentsService_AuthorizePayment_Handler [∀ m, Inhabited (Req m)] :
    MethodHandler Ctx σ Req Resp :=
  fun srv ctx dec interceptor s =>
    match dec .AuthorizePayment default s with
    | ((some err, _), s1) => (.ret .nil (some err), s1)
    | ((none, inp), s1) =>
      match interceptor with
      | none => toOutcome .AuthorizePayment (srv.AuthorizePayment ctx (some inp) s1)
      | some icpt =>
        let info : UnaryServerInfo Ctx σ Req Resp :=
          ⟨srv, "/paymentspb.PaymentsService/AuthorizePayment"⟩
        let handler : UnaryHandler Ctx σ Req Resp := fun ctx req t =>
          match req with
          | .request .AuthorizePayment p => toOutcome .AuthorizePayment (srv.AuthorizePayment ctx p t)
          | _ => (.panicked, t)
        icpt ctx (.request .AuthorizePayment (some inp)) info handler s1

/-- Go: `func _PaymentsService_ConfirmPayment_Handler(srv, ctx, dec, interceptor)`. -/
def _PaymentsService_ConfirmPayment_Handler [∀ m, Inhabited (Req m)] :
    MethodHandler Ctx σ Req Resp :=
  fun srv ctx dec interceptor s =>
    match dec .ConfirmPayment default s with
    | ((some err, _), s1) => (.ret .nil (some err), s1)
    | ((none, inp), s1) =>
      match interceptor with
      | none => toOutcome .ConfirmPayment (srv.ConfirmPayment ctx (some inp) s1)
      | some icpt =>
        let info : UnaryServerInfo Ctx σ Req Resp :=
          ⟨srv, "/paymentspb.PaymentsService/ConfirmPayment"⟩
        let handler : UnaryHandler Ctx σ Req Resp := fun ctx req t =>
          match req with
          | .request .ConfirmPayment p => toOutcome .ConfirmPayment (srv.ConfirmPayment ctx p t)
          | _ => (.panicked, t)
        icpt ctx (.request .ConfirmPayment (some inp)) info handler s1

/-- Go: `func _PaymentsService_CreateInvoice_Handler(srv, ctx, dec, interceptor)`. -/
def _PaymentsService_CreateInvoice_Handler [∀ m, Inhabited (Req m)] :
    MethodHandler Ctx σ Req Resp :=
  fun srv ctx dec interceptor s =>
    match dec .CreateInvoice default s with
    | ((some err, _), s1) => (.ret .nil (some err), s1)
    | ((none, inp), s1) =>
      match interceptor with
      | none => toOutcome .CreateInvoice (srv.CreateInvoice ctx (some inp) s1)
      | some icpt =>
        let info : UnaryServerInfo Ctx σ Req Resp :=
          ⟨srv, "/paymentspb.PaymentsService/CreateInvoice"⟩
        let handler : UnaryHandler Ctx σ Req Resp := fun ctx req t =>
          match req with
          | .request .CreateInvoice p => toOutcome .CreateInvoice (srv.CreateInvoice ctx p t)
          | _ => (.panicked, t)
        icpt ctx (.request .CreateInvoice (some inp)) info handler s1

/-- Go: `func _PaymentsService_AdjustInvoice_Handler(srv, ctx, dec, interceptor)`. -/
def _PaymentsService_AdjustInvoice_Handler [∀ m, Inhabited (Req m)] :
    MethodHandler Ctx σ Req Resp :=
  fun srv ctx dec interceptor s =>
    match dec .AdjustInvoice default s with
    | ((some err, _), s1) => (.ret .nil (some err), s1)
    | ((none, inp), s1) =>
      match interceptor with
      | none => toOutcome .AdjustInvoice (srv.AdjustInvoice ctx (some inp) s1)
      | some icpt =>
        let info : UnaryServerInfo Ctx σ Req Resp :=
          ⟨srv, "/paymentspb.PaymentsService/AdjustInvoice"⟩
        let handler : UnaryHandler Ctx σ Req Resp := fun ctx req t =>
          match req with
          | .request .AdjustInvoice p => toOutcome .AdjustInvoice (srv.AdjustInvoice ctx p t)
          | _ => (.panicked, t)
        icpt ctx (.request .AdjustInvoice (some inp)) info handler s1

/-- Go: `func _PaymentsService_PayInvoice_Handler(srv, ctx, dec, interceptor)`. -/
def _PaymentsService_PayInvoice_Handler [∀ m, Inhabited (Req m)] :
    MethodHandler Ctx σ Req Resp :=
  fun srv ctx dec interceptor s =>
    match dec .PayInvoice default s with
    | ((some err, _), s1) => (.ret .nil (some err), s1)
    | ((none, inp), s1) =>
      match interceptor with
      | none => toOutcome .PayInvoice (srv.PayInvoice ctx (some inp) s1)
      | some icpt =>
        let info : UnaryServerInfo Ctx σ Req Resp :=
          ⟨srv, "/paymentspb.PaymentsService/PayInvoice"⟩
        let handler : UnaryHandler Ctx σ Req Resp := fun ctx req t =>
          match req with
          | .request .PayInvoice p => toOutcome .PayInvoice (srv.PayInvoice ctx p t)
          | _ => (.panicked, t)
        icpt ctx (.request .PayInvoice (some inp)) info handler s1

/-- Go: `func _PaymentsService_CancelInvoice_Handler(srv, ctx, dec, interceptor)`. -/
def _PaymentsService_CancelInvoice_Handler [∀ m, Inhabited (Req m)] :
    MethodHandler Ctx σ Req Resp :=
  fun srv ctx dec interceptor s =>
    match dec .CancelInvoice default s with
    | ((some err, _), s1) => (.ret .nil (some err), s1)
    | ((none, inp), s1) =>
      match interceptor with
      | none => toOutcome .CancelInvoice (srv.CancelInvoice ctx (some inp) s1)
      | some icpt =>
        let info : UnaryServerInfo Ctx σ Req Resp :=
          ⟨srv, "/paymentspb.PaymentsService/CancelInvoice"⟩
        let handler : UnaryHandler Ctx σ Req Resp := fun ctx req t =>
          match req with
          | .request .CancelInvoice p => toOutcome .CancelInvoice (srv.CancelInvoice ctx p t)
          | _ => (.panicked, t)
        icpt ctx (.request .CancelInvoice (some inp)) info handler s1

/-- Go: `grpc.MethodDesc`. -/
structure MethodDesc (Ctx σ : Type) (Req Resp : RPC → Type) where
  MethodName : String
  Handler : MethodHandler Ctx σ Req Resp

/-- Go: `grpc.StreamDesc`, restricted to its name. -/
structure StreamDesc where
  StreamName : String

/-- Go: `grpc.ServiceDesc`, without `HandlerType`. -/
structure ServiceDesc (Ctx σ : Type) (Req Resp : RPC → Type) where
  ServiceName : String
  Methods : List (MethodDesc Ctx σ Req Resp)
  Streams : List StreamDesc
  Metadata : String

/-- Go: `var PaymentsService_ServiceDesc = grpc.ServiceDesc{...}`. -/
def PaymentsService_ServiceDesc [∀ m, Inhabited (Req m)] : ServiceDesc Ctx σ Req Resp :=
  ⟨"paymentspb.PaymentsService",
   [⟨"AuthorizePayment", _PaymentsService_AuthorizePayment_Handler⟩,
    ⟨"ConfirmPayment", _PaymentsService_ConfirmPayment_Handler⟩,
    ⟨"CreateInvoice", _PaymentsService_CreateInvoice_Handler⟩,
    ⟨"AdjustInvoice", _PaymentsService_AdjustInvoice_Handler⟩,
    ⟨"PayInvoice", _PaymentsService_PayInvoice_Handler⟩,
    ⟨"CancelInvoice", _PaymentsService_CancelInvoice_Handler⟩],
   [],
   "paymentspb/api.proto"⟩

end Handlers

/-! ## paymentspb: the declared method sets -/

/-- A method of a Go interface declaration: its name, the types of its
parameters and the types of its results, as written in the source. -/
structure MethodSig where
  name : String
  params : List String
  results : List String
  deriving DecidableEq, Repr

/-- A method is an RPC method when it takes a `context.Context` first and
returns an `error` last. -/
def MethodSig.isRPC (m : MethodSig) : Bool :=
  m.params.head? == some "context.Context" && m.results.getLast? == some "error"

/-- Go: the method set of `type PaymentsServiceClient interface`. -/
def PaymentsServiceClient.methodSet : List MethodSig :=
  [⟨"AuthorizePayment",
      ["context.Context", "*AuthorizePaymentRequest", "...grpc.CallOption"],
      ["*AuthorizePaymentResponse", "error"]⟩,
   ⟨"ConfirmPayment",
      ["context.Context", "*ConfirmPaymentRequest", "...grpc.CallOption"],
      ["*ConfirmPaymentResponse", "error"]⟩,
   ⟨"CreateInvoice",
      ["context.Context", "*CreateInvoiceRequest", "...grpc.CallOption"],
      ["*CreateInvoiceResponse", "error"]⟩,
   ⟨"AdjustInvoice",
      ["context.Context", "*AdjustInvoiceRequest", "...grpc.CallOption"],
      ["*AdjustInvoiceResponse", "error"]⟩,
   ⟨"PayInvoice",
      ["context.Context", "*PayInvoiceRequest", "...grpc.CallOption"],
      ["*PayInvoiceResponse", "error"]⟩,
   ⟨"CancelInvoice",
      ["context.Context", "*CancelInvoiceRequest", "...grpc.CallOption"],
      ["*CancelInvoiceResponse", "error"]⟩]

/-- Go: the method set of `type PaymentsServiceServer interface`. -/
def PaymentsServiceServer.methodSet : List MethodSig :=
  [⟨"AuthorizePayment", ["context.Context", "*AuthorizePaymentRequest"],
      ["*AuthorizePaymentResponse", "error"]⟩,
   ⟨"ConfirmPayment", ["context.Context", "*ConfirmPaymentRequest"],
      ["*ConfirmPaymentResponse", "error"]⟩,
   ⟨"CreateInvoice", ["context.Context", "*CreateInvoiceRequest"],
      ["*CreateInvoiceResponse", "error"]⟩,
   ⟨"AdjustInvoice", ["context.Context", "*AdjustInvoiceRequest"],
      ["*AdjustInvoiceResponse", "error"]⟩,
   ⟨"PayInvoice", ["context.Context", "*PayInvoiceRequest"],
      ["*PayInvoiceResponse", "error"]⟩,
   ⟨"CancelInvoice", ["context.Context", "*CancelInvoiceRequest"],
      ["*CancelInvoiceResponse", "error"]⟩,
   ⟨"mustEmbedUnimplementedPaymentsServiceServer", [], []⟩]

/-- The names of the RPC methods of a method set, in declaration order. -/
def rpcNames (ms : List MethodSig) : List String :=
  (ms.filter MethodSig.isRPC).map MethodSig.name

/-! ## paymentspb: pairing of procedures, stubs and handlers -/

section Routing

variable {Ctx Opt σ : Type} {Req Resp : RPC → Type}

/-- The handler the source names after procedure `m`:
`_PaymentsService_<m>_Handler`. -/
def handlerOf [∀ m, Inhabited (Req m)] : RPC → MethodHandler Ctx σ Req Resp
  | .AuthorizePayment => _PaymentsService_AuthorizePayment_Handler
  | .ConfirmPayment => _PaymentsService_ConfirmPayment_Handler
  | .CreateInvoice => _PaymentsService_CreateInvoice_Handler
  | .AdjustInvoice => _PaymentsService_AdjustInvoice_Handler
  | .PayInvoice => _PaymentsService_PayInvoice_Handler
  | .CancelInvoice => _PaymentsService_CancelInvoice_Handler

/-- The server method the source names after procedure `m`: `srv.<m>`. -/
def serverMethod (srv : PaymentsServiceServer Ctx σ Req Resp) :
    (m : RPC) → Ctx → Option (Req m) → σ → ServerResult σ Resp m
  | .AuthorizePayment => srv.AuthorizePayment
  | .ConfirmPayment => srv.ConfirmPayment
  | .CreateInvoice => srv.CreateInvoice
  | .AdjustInvoice => srv.AdjustInvoice
  | .PayInvoice => srv.PayInvoice
  | .CancelInvoice => srv.CancelInvoice

/-- The client method the source names after procedure `m`: `c.<m>`. -/
def clientMethod (c : PaymentsServiceClient Ctx Opt σ Req Resp) :
    (m : RPC) → Ctx → Option (Req m) → List Opt → σ → ClientResult σ Resp m
  | .AuthorizePayment => c.AuthorizePayment
  | .ConfirmPayment => c.ConfirmPayment
  | .CreateInvoice => c.CreateInvoice
  | .AdjustInvoice => c.AdjustInvoice
  | .PayInvoice => c.PayInvoice
  | .CancelInvoice => c.CancelInvoice

/-- The method paths the client stub of procedure `m` passes to `Invoke` in one
call, read off the log of the recording connection over `cc`. -/
def invokedPaths [∀ m, Inhabited (Resp m)] (cc : ClientConnInterface Ctx Opt σ Req Resp)
    (m : RPC) (ctx : Ctx) (inp : Option (Req m)) (opts : List Opt) (s : σ) : List String :=
  (clientMethod (NewPaymentsServiceClient (recording cc)) m ctx inp opts (s, [])).2.2.map
    InvokeCall.method

/-- A decode function that accepts: it leaves the request and the world as
they are and returns the nil error. -/
def acceptingDecoder : Decoder σ Req :=
  fun _ z s => ((none, z), s)

/-- An interceptor that appends the `FullMethod` of the `UnaryServerInfo` it is
given to a log kept beside the world, and calls nothing. -/
def infoLogger : UnaryServerInterceptor Ctx (σ × List String) Req Resp :=
  fun _ _ info _ s => (.ret .nil none, (s.1, s.2 ++ [info.FullMethod]))

/-- The `FullMethod` strings the handler of procedure `m` announces to its
interceptor in one call with an accepting decoder. -/
def announcedFullMethods [∀ m, Inhabited (Req m)]
    (srv : PaymentsServiceServer Ctx (σ × List String) Req Resp) (m : RPC) (ctx : Ctx)
    (s : σ) : List String :=
  (handlerOf m srv ctx acceptingDecoder (some infoLogger) (s, [])).2.2

/-- The route of a method descriptor `md` of service descriptor `sd`:
`"/" + ServiceName + "/" + MethodName`. -/
def routeOf (sd : ServiceDesc Ctx σ Req Resp) (md : MethodDesc Ctx σ Req Resp) : String :=
  "/" ++ sd.ServiceName ++ "/" ++ md.MethodName

/-- An effect of an interceptor on the world; it may look at the context, the
request and the server info the interceptor was given. -/
abbrev Effect (Ctx σ : Type) (Req Resp : RPC → Type) :=
  Ctx → Any Req Resp → UnaryServerInfo Ctx σ Req Resp → σ → σ

/-- An interceptor passes through, with the effects `before` and `after` of its
own on the world (logging, counting), when it returns `handler(ctx, req)` for
the `ctx`, `req` and `handler` it was given: it runs `before`, calls the
handler once on that `ctx` and `req`, runs `after` on the world the handler
left, and returns the handler's pair. -/
def PassesThrough (icpt : UnaryServerInterceptor Ctx σ Req Resp)
    (before after : Effect Ctx σ Req Resp) : Prop :=
  ∀ ctx req info handler s,
    icpt ctx req info handler s
      = ((handler ctx req (before ctx req info s)).1,
         after ctx req info (handler ctx req (before ctx req info s)).2)

/-- The effect that leaves the world as it is. -/
def noEffect : Effect Ctx σ Req Resp :=
  fun _ _ _ s => s

/-- The plain pass-through interceptor, with no effect of its own. -/
def passThrough : UnaryServerInterceptor Ctx σ Req Resp :=
  fun ctx req _ handler s => handler ctx req s

end Routing

/-! ## paymentspb: message contents named by the specification

The message types are declared in `api.pb.go`, which is not among the source
files; the generated stubs never look inside a message.  The structures below
give the requests and stored records the fields the specification lists, so
that its statements about invoices can be put to the server methods. -/

section SpecData

/-- Modelled from the spec: a line item `(description, amount, currency)` of
section 3; the message type is declared in `api.pb.go`, absent from `src/`. -/
structure LineItem where
  description : String
  amount : Int
  currency : String
  deriving DecidableEq, Repr

/-- Modelled from the spec: the invoice `status` values of section 3; no source
file declares them. -/
inductive InvoiceStatus
  | Draft
  | Open
  | PartiallyPaid
  | Paid
  | Cancelled
  deriving DecidableEq, Repr

/-- Modelled from the spec: the `Invoice` record of section 3; no source file
declares it. -/
structure Invoice where
  id : String
  status : InvoiceStatus
  lineItems : List LineItem
  totalAmount : Int
  amountPaid : Int
  version : Nat
  deriving DecidableEq, Repr

/-- Modelled from the spec: the durable invoices of the Ledger Store of section
2, as the world the service methods run in; no source file declares it. -/
abbrev Ledger := List Invoice

/-- Modelled from the spec: the `CreateInvoice` input of section 6
(`lineItems, currency`); `CreateInvoiceRequest` is declared in `api.pb.go`,
absent from `src/`. -/
structure CreateInvoiceRequest where
  lineItems : List LineItem
  currency : String
  deriving DecidableEq, Repr

/-- Modelled from the spec: the `CreateInvoice` output of section 6
(`invoiceId, version, status`); `CreateInvoiceResponse` is declared in
`api.pb.go`, absent from `src/`. -/
structure CreateInvoiceResponse where
  invoiceId : String
  version : Nat
  status : InvoiceStatus
  deriving DecidableEq, Repr

/-- Modelled from the spec: the `CancelInvoice` input of section 6
(`invoiceId, expectedVersion`); `CancelInvoiceRequest` is declared in
`api.pb.go`, absent from `src/`. -/
structure CancelInvoiceRequest where
  invoiceId : String
  expectedVersion : Nat
  deriving DecidableEq, Repr

/-- Modelled from the spec: the `CancelInvoice` output of section 6
(`version, status`); `CancelInvoiceResponse` is declared in `api.pb.go`, absent
from `src/`. -/
structure CancelInvoiceResponse where
  version : Nat
  status : InvoiceStatus
  deriving DecidableEq, Repr

/-- Modelled from the spec: the request message of each procedure; the
procedures the invoice statements do not concern carry no fields here. -/
def SpecReq : RPC → Type
  | .CreateInvoice => CreateInvoiceRequest
  | .CancelInvoice => CancelInvoiceRequest
  | _ => Unit

/-- Modelled from the spec: the response message of each procedure; the
procedures the invoice statements do not concern carry no fields here. -/
def SpecResp : RPC → Type
  | .CreateInvoice => CreateInvoiceResponse
  | .CancelInvoice => CancelInvoiceResponse
  | _ => Unit

/-- Modelled from the spec: a valid line-item set of section 4.1: non-empty,
every amount positive, every item in the one currency of the request. -/
def validLineItems (items : List LineItem) (currency : String) : Prop :=
  items ≠ [] ∧ ∀ it ∈ items, 0 < it.amount ∧ it.currency = currency

/-- Modelled from the spec: the sum of the item amounts (`totalAmount` of
section 3). -/
def sumAmounts (items : List LineItem) : Int :=
  (items.map LineItem.amount).sum

/-- Modelled from the spec: the first testable property of section 8, put to a
server method `create`: on every valid line-item set the call succeeds, and the
invoice it reports is in the ledger with `totalAmount` the sum of the item
amounts and `status = Open`. -/
def CreateInvoiceYieldsOpenTotal {Ctx : Type}
    (create : Ctx → Option (SpecReq .CreateInvoice) → Ledger →
      ServerResult Ledger SpecResp .CreateInvoice) : Prop :=
  ∀ (ctx : Ctx) (items : List LineItem) (currency : String) (led : Ledger),
    validLineItems items currency →
    ∃ (resp : CreateInvoiceResponse) (led1 : Ledger),
      create ctx (some (⟨items, currency⟩ : CreateInvoiceRequest)) led
        = ((some resp, none), led1)
      ∧ resp.status = InvoiceStatus.Open
      ∧ ∃ inv ∈ led1, inv.id = resp.invoiceId ∧ inv.totalAmount = sumAmounts items
          ∧ inv.status = InvoiceStatus.Open

/-- Modelled from the spec: the cancellation guard of section 8, put to a
server method `cancel`: for every stored invoice with `amountPaid > 0` the call
returns no response and an error of kind `InvalidState`, and the ledger is as
before. -/
def CancelGuard {Ctx : Type}
    (cancel : Ctx → Option (SpecReq .CancelInvoice) → Ledger →
      ServerResult Ledger SpecResp .CancelInvoice) : Prop :=
  ∀ (ctx : Ctx) (led : Ledger) (inv : Invoice), inv ∈ led → 0 < inv.amountPaid →
    ∃ e : GoError,
      cancel ctx (some (⟨inv.id, inv.version⟩ : CancelInvoiceRequest)) led
        = ((none, some e), led)
      ∧ e.kind? = some ErrorKind.InvalidState

/-- The invoice of the scenario of section 8 after its payment: one line item
`(widget, 100, USD)`, paid in full. -/
def paidWidgetInvoice : Invoice :=
  ⟨"inv-1", InvoiceStatus.Paid, [⟨"widget", 100, "USD"⟩], 100, 100, 3⟩

end SpecData

/-! ## paymentspb: observers and concrete collaborators -/

section Observers

variable {Ctx σ : Type} {Req Resp : RPC → Type}

/-- One call of a server method as the server sees it: which method, and the
request it was given. -/
structure ServerCall (Req Resp : RPC → Type) where
  method : RPC
  req : Any Req Resp

/-- A server that behaves like `srv` and appends every method call it receives
to a log kept beside the world of `srv`. -/
def spying (srv : PaymentsServiceServer Ctx σ Req Resp) :
    PaymentsServiceServer Ctx (σ × List (ServerCall Req Resp)) Req Resp :=
  ⟨fun ctx req s => ((srv.AuthorizePayment ctx req s.1).1,
      ((srv.AuthorizePayment ctx req s.1).2,
       s.2 ++ [⟨.AuthorizePayment, .request .AuthorizePayment req⟩])),
   fun ctx req s => ((srv.ConfirmPayment ctx req s.1).1,
      ((srv.ConfirmPayment ctx req s.1).2,
       s.2 ++ [⟨.ConfirmPayment, .request .ConfirmPayment req⟩])),
   fun ctx req s => ((srv.CreateInvoice ctx req s.1).1,
      ((srv.CreateInvoice ctx req s.1).2,
       s.2 ++ [⟨.CreateInvoice, .request .CreateInvoice req⟩])),
   fun ctx req s => ((srv.AdjustInvoice ctx req s.1).1,
      ((srv.AdjustInvoice ctx req s.1).2,
       s.2 ++ [⟨.AdjustInvoice, .request .AdjustInvoice req⟩])),
   fun ctx req s => ((srv.PayInvoice ctx req s.1).1,
      ((srv.PayInvoice ctx req s.1).2,
       s.2 ++ [⟨.PayInvoice, .request .PayInvoice req⟩])),
   fun ctx req s => ((srv.CancelInvoice ctx req s.1).1,
      ((srv.CancelInvoice ctx req s.1).2,
       s.2 ++ [⟨.CancelInvoice, .request .CancelInvoice req⟩])),
   ()⟩

/-- A decode function that behaves like `dec` and leaves a log kept beside the
world of `dec` alone. -/
def besideLog {L : Type} (dec : Decoder σ Req) : Decoder (σ × L) Req :=
  fun m z s => ((dec m z s.1).1, ((dec m z s.1).2, s.2))

/-- A decode function that rejects every request with the error `err`. -/
def rejectingDecoder (err : GoError) : Decoder σ Req :=
  fun _ z s => ((some err, z), s)

/-- Messages that carry one number, whatever the procedure. -/
abbrev NatMsg : RPC → Type := fun _ => Nat

/-- A concrete server over a counter: each method answers with the number in
the request (zero for the nil request) plus a number of its own, and adds that
number to the counter. -/
def tallyServer : PaymentsServiceServer Unit Nat NatMsg NatMsg :=
  ⟨fun _ req s => ((some (req.getD 0 + 1), none), s + 1),
   fun _ req s => ((some (req.getD 0 + 2), none), s + 2),
   fun _ req s => ((some (req.getD 0 + 3), none), s + 3),
   fun _ req s => ((some (req.getD 0 + 4), none), s + 4),
   fun _ req s => ((some (req.getD 0 + 5), none), s + 5),
   fun _ req s => ((some (req.getD 0 + 6), none), s + 6),
   ()⟩

/-- A concrete decode function over a counter: it fills the request with the
number 40 and accepts. -/
def fortyDecoder : Decoder Nat NatMsg :=
  fun _ _ s => ((none, 40), s)

/-- A concrete interceptor over a counter: it calls nothing, panics and adds
100 to the counter. -/
def loudInterceptor : UnaryServerInterceptor Unit Nat NatMsg NatMsg :=
  fun _ _ _ _ s => (.panicked, s + 100)

/-- An effect on the world of a server, seen on that world with a log kept
beside it: the log is left alone. -/
def besideLogEffect {L : Type}
    (f : Ctx → Any Req Resp → UnaryServerInfo Ctx (σ × L) Req Resp → σ → σ) :
    Effect Ctx (σ × L) Req Resp :=
  fun ctx req info w => (f ctx req info w.1, w.2)

/-- A concrete server over a counter that reads the counter and can fail:
`PayInvoice` answers with the counter, `CancelInvoice` fails with an error of
kind `InvalidState` and adds one to the counter, the other methods answer with
the number in the request. -/
def meterServer : PaymentsServiceServer Unit Nat NatMsg NatMsg :=
  ⟨fun _ req s => ((some (req.getD 0), none), s),
   fun _ req s => ((some (req.getD 0), none), s),
   fun _ req s => ((some (req.getD 0), none), s),
   fun _ req s => ((some (req.getD 0), none), s),
   fun _ _ s => ((some s, none), s),
   fun _ _ s => ((none, some (GoError.domain ErrorKind.InvalidState)), s + 1),
   ()⟩

/-- The effect of the counting interceptor: add 100 to the counter. -/
def addHundred : Effect Unit Nat NatMsg NatMsg :=
  fun _ _ _ s => s + 100

/-- A concrete interceptor over a counter: it adds 100 to the counter and then
returns `handler(ctx, req)` for the `ctx` and `req` it was given. -/
def countingInterceptor : UnaryServerInterceptor Unit Nat NatMsg NatMsg :=
  fun ctx req _ handler s => handler ctx req (s + 100)

/-- The counting interceptor over a counter with a server call log beside it:
it adds 100 to the counter, leaves the log alone, and then returns
`handler(ctx, req)` for the `ctx` and `req` it was given. -/
def countingBesideLog :
    UnaryServerInterceptor Unit (Nat × List (ServerCall NatMsg NatMsg)) NatMsg NatMsg :=
  fun ctx req _ handler w => handler ctx req (w.1 + 100, w.2)

/-- A concrete interceptor, over any world: it drops the request it was given
and calls the handler with a `CancelInvoice` request that carries 99. -/
def swappingInterceptor {τ : Type} : UnaryServerInterceptor Unit τ NatMsg NatMsg :=
  fun ctx _ _ handler s => handler ctx (.request .CancelInvoice (some 99)) s

end Observers

/-! ## Theorems -/

end paymentspb

/-- C5: when `options` is `MONGODB`, `NewPersistenceLayer` returns exactly what
`mongolayer.NewMongoDBLayer` returns for the same, unchanged connection string:
handler and error alike, so an error of the backend constructor is propagated
as it is. -/
theorem dblayer.NewPersistenceLayer_mongodb {H E : Type}
    (NewMongoDBLayer : String → Option H × Option E) (connection : String) :
    dblayer.NewPersistenceLayer NewMongoDBLayer dblayer.MONGODB connection
      = NewMongoDBLayer connection := by
  simp [dblayer.NewPersistenceLayer]

/-- C1 (the code at its failing inputs): for `DOCUMENTDB` and for `DYNAMODB`,
whatever `mongolayer.NewMongoDBLayer` does and whatever the connection string,
`NewPersistenceLayer` returns the nil handler together with the nil error. -/
theorem dblayer.NewPersistenceLayer_documentdb_dynamodb {H E : Type}
    (NewMongoDBLayer : String → Option H × Option E) (connection : String) :
    dblayer.NewPersistenceLayer NewMongoDBLayer dblayer.DOCUMENTDB connection = (none, none)
    ∧ dblayer.NewPersistenceLayer NewMongoDBLayer dblayer.DYNAMODB connection
      = (none, none) := by
  constructor <;>
    simp [dblayer.NewPersistenceLayer, dblayer.MONGODB, dblayer.DOCUMENTDB, dblayer.DYNAMODB]

namespace paymentspb

/-- C3: each of the six methods of `UnimplementedPaymentsServiceServer`, for
every context and every request (the nil request included), returns the nil
response together with a status error of code `Unimplemented` whose message is
exactly `method X not implemented`, and leaves the world as it was. -/
theorem UnimplementedPaymentsServiceServer_unimplemented {Ctx σ : Type}
    {Req Resp : RPC → Type} (ctx : Ctx) (s : σ) :
    (∀ req : Option (Req .AuthorizePayment),
      (UnimplementedPaymentsServiceServer.AuthorizePayment ctx req s :
          ServerResult σ Resp .AuthorizePayment)
        = ((none, some (.status .Unimplemented "method AuthorizePayment not implemented")), s))
    ∧ (∀ req : Option (Req .ConfirmPayment),
      (UnimplementedPaymentsServiceServer.ConfirmPayment ctx req s :
          ServerResult σ Resp .ConfirmPayment)
        = ((none, some (.status .Unimplemented "method ConfirmPayment not implemented")), s))
    ∧ (∀ req : Option (Req .CreateInvoice),
      (UnimplementedPaymentsServiceServer.CreateInvoice ctx req s :
          ServerResult σ Resp .CreateInvoice)
        = ((none, some (.status .Unimplemented "method CreateInvoice not implemented")), s))
    ∧ (∀ req : Option (Req .AdjustInvoice),
      (UnimplementedPaymentsServiceServer.AdjustInvoice ctx req s :
          ServerResult σ Resp .AdjustInvoice)
        = ((none, some (.status .Unimplemented "method AdjustInvoice not implemented")), s))
    ∧ (∀ req : Option (Req .PayInvoice),
      (UnimplementedPaymentsServiceServer.PayInvoice ctx req s :
          ServerResult σ Resp .PayInvoice)
        = ((none, some (.status .Unimplemented "method PayInvoice not implemented")), s))
    ∧ (∀ req : Option (Req .CancelInvoice),
      (UnimplementedPaymentsServiceServer.CancelInvoice ctx req s :
          ServerResult σ Resp .CancelInvoice)
        = ((none, some (.status .Unimplemented "method CancelInvoice not implemented")), s)) := by
  refine ⟨?_, ?_, ?_, ?_, ?_, ?_⟩ <;> intro req <;> rfl

/-- C4: `PaymentsService_ServiceDesc` lists exactly the six procedures of the
RPC table, under pairwise distinct names and in the order of the source, and no
stream; the RPC methods of the client interface and of the server interface
are, name for name, the entries of `Methods` (the client interface has no other
method, the server interface only the marker method besides). -/
theorem PaymentsService_ServiceDesc_surface {Ctx σ : Type} {Req Resp : RPC → Type}
    [∀ m, Inhabited (Req m)] :
    (PaymentsService_ServiceDesc : ServiceDesc Ctx σ Req Resp).Methods.map
        MethodDesc.MethodName
      = ["AuthorizePayment", "ConfirmPayment", "CreateInvoice", "AdjustInvoice",
         "PayInvoice", "CancelInvoice"]
    ∧ (PaymentsService_ServiceDesc : ServiceDesc Ctx σ Req Resp).Methods.length = 6
    ∧ ((PaymentsService_ServiceDesc : ServiceDesc Ctx σ Req Resp).Methods.map
        MethodDesc.MethodName).Nodup
    ∧ (PaymentsService_ServiceDesc : ServiceDesc Ctx σ Req Resp).Streams = []
    ∧ rpcNames PaymentsServiceClient.methodSet
      = (PaymentsService_ServiceDesc : ServiceDesc Ctx σ Req Resp).Methods.map
          MethodDesc.MethodName
    ∧ PaymentsServiceClient.methodSet.length = 6
    ∧ rpcNames PaymentsServiceServer.methodSet
      = (PaymentsService_ServiceDesc : ServiceDesc Ctx σ Req Resp).Methods.map
          MethodDesc.MethodName
    ∧ PaymentsServiceServer.methodSet.map MethodSig.name
      = (PaymentsService_ServiceDesc : ServiceDesc Ctx σ Req Resp).Methods.map
          MethodDesc.MethodName ++ ["mustEmbedUnimplementedPaymentsServiceServer"] := by
  refine ⟨rfl, rfl, ?_, rfl, ?_, rfl, ?_, rfl⟩
  · show List.Nodup ["AuthorizePayment", "ConfirmPayment", "CreateInvoice", "AdjustInvoice",
      "PayInvoice", "CancelInvoice"]
    decide
  · show rpcNames PaymentsServiceClient.methodSet = ["AuthorizePayment", "ConfirmPayment",
      "CreateInvoice", "AdjustInvoice", "PayInvoice", "CancelInvoice"]
    decide
  · show rpcNames PaymentsServiceServer.methodSet = ["AuthorizePayment", "ConfirmPayment",
      "CreateInvoice", "AdjustInvoice", "PayInvoice", "CancelInvoice"]
    decide

/-! ### Shared lemmas on the stubs -/

section Lemmas

variable {Ctx Opt σ : Type} {Req Resp : RPC → Type}

theorem client_AuthorizePayment_eq [∀ m, Inhabited (Resp m)]
    (c : ClientConnInterface Ctx Opt σ Req Resp) (ctx : Ctx) (inp : Option (Req .AuthorizePayment))
    (opts : List Opt) (s : σ) :
    (NewPaymentsServiceClient c).AuthorizePayment ctx inp opts s
      = (exchangeResult (c.Invoke ctx "/paymentspb.PaymentsService/AuthorizePayment"
            (.request .AuthorizePayment inp) .AuthorizePayment default opts s).1,
         (c.Invoke ctx "/paymentspb.PaymentsService/AuthorizePayment"
            (.request .AuthorizePayment inp) .AuthorizePayment default opts s).2) := by
  simp only [NewPaymentsServiceClient, paymentsServiceClient.AuthorizePayment, exchangeResult]
  generalize c.Invoke ctx "/paymentspb.PaymentsService/AuthorizePayment"
    (.request .AuthorizePayment inp) .AuthorizePayment default opts s = r
  rcases r with ⟨⟨_ | e, o⟩, s1⟩ <;> rfl

theorem client_ConfirmPayment_eq [∀ m, Inhabited (Resp m)]
    (c : ClientConnInterface Ctx Opt σ Req Resp) (ctx : Ctx) (inp : Option (Req .ConfirmPayment))
    (opts : List Opt) (s : σ) :
    (NewPaymentsServiceClient c).ConfirmPayment ctx inp opts s
      = (exchangeResult (c.Invoke ctx "/paymentspb.PaymentsService/ConfirmPayment"
            (.request .ConfirmPayment inp) .ConfirmPayment default opts s).1,
         (c.Invoke ctx "/paymentspb.PaymentsService/ConfirmPayment"
            (.request .ConfirmPayment inp) .ConfirmPayment default opts s).2) := by
  simp only [NewPaymentsServiceClient, paymentsServiceClient.ConfirmPayment, exchangeResult]
  generalize c.Invoke ctx "/paymentspb.PaymentsService/ConfirmPayment"
    (.request .ConfirmPayment inp) .ConfirmPayment default opts s = r
  rcases r with ⟨⟨_ | e, o⟩, s1⟩ <;> rfl

theorem client_CreateInvoice_eq [∀ m, Inhabited (Resp m)]
    (c : ClientConnInterface Ctx Opt σ Req Resp) (ctx : Ctx) (inp : Option (Req .CreateInvoice))
    (opts : List Opt) (s : σ) :
    (NewPaymentsServiceClient c).CreateInvoice ctx inp opts s
      = (exchangeResult (c.Invoke ctx "/paymentspb.PaymentsService/CreateInvoice"
            (.request .CreateInvoice inp) .CreateInvoice default opts s).1,
         (c.Invoke ctx "/paymentspb.PaymentsService/CreateInvoice"
            (.request .CreateInvoice inp) .CreateInvoice default opts s).2) := by
  simp only [NewPaymentsServiceClient, paymentsServiceClient.CreateInvoice, exchangeResult]
  generalize c.Invoke ctx "/paymentspb.PaymentsService/CreateInvoice"
    (.request .CreateInvoice inp) .CreateInvoice default opts s = r
  rcases r with ⟨⟨_ | e, o⟩, s1⟩ <;> rfl

theorem client_AdjustInvoice_eq [∀ m, Inhabited (Resp m)]
    (c : ClientConnInterface Ctx Opt σ Req Resp) (ctx : Ctx) (inp : Option (Req .AdjustInvoice))
    (opts : List Opt) (s : σ) :
    (NewPaymentsServiceClient c).AdjustInvoice ctx inp opts s
      = (exchangeResult (c.Invoke ctx "/paymentspb.PaymentsService/AdjustInvoice"
            (.request .AdjustInvoice inp) .AdjustInvoice default opts s).1,
         (c.Invoke ctx "/paymentspb.PaymentsService/AdjustInvoice"
            (.request .AdjustInvoice inp) .AdjustInvoice default opts s).2) := by
  simp only [NewPaymentsServiceClient, paymentsServiceClient.AdjustInvoice, exchangeResult]
  generalize c.Invoke ctx "/paymentspb.PaymentsService/AdjustInvoice"
    (.request .AdjustInvoice inp) .AdjustInvoice default opts s = r
  rcases r with ⟨⟨_ | e, o⟩, s1⟩ <;> rfl

theorem client_PayInvoice_eq [∀ m, Inhabited (Resp m)]
    (c : ClientConnInterface Ctx Opt σ Req Resp) (ctx : Ctx) (inp : Option (Req .PayInvoice))
    (opts : List Opt) (s : σ) :
    (NewPaymentsServiceClient c).PayInvoice ctx inp opts s
      = (exchangeResult (c.Invoke ctx "/paymentspb.PaymentsService/PayInvoice"
            (.request .PayInvoice inp) .PayInvoice default opts s).1,
         (c.Invoke ctx "/paymentspb.PaymentsService/PayInvoice"
            (.request .PayInvoice inp) .PayInvoice default opts s).2) := by
  simp only [NewPaymentsServiceClient, paymentsServiceClient.PayInvoice, exchangeResult]
  generalize c.Invoke ctx "/paymentspb.PaymentsService/PayInvoice"
    (.request .PayInvoice inp) .PayInvoice default opts s = r
  rcases r with ⟨⟨_ | e, o⟩, s1⟩ <;> rfl

theorem client_CancelInvoice_eq [∀ m, Inhabited (Resp m)]
    (c : ClientConnInterface Ctx Opt σ Req Resp) (ctx : Ctx) (inp : Option (Req .CancelInvoice))
    (opts : List Opt) (s : σ) :
    (NewPaymentsServiceClient c).CancelInvoice ctx inp opts s
      = (exchangeResult (c.Invoke ctx "/paymentspb.PaymentsService/CancelInvoice"
            (.request .CancelInvoice inp) .CancelInvoice default opts s).1,
         (c.Invoke ctx "/paymentspb.PaymentsService/CancelInvoice"
            (.request .CancelInvoice inp) .CancelInvoice default opts s).2) := by
  simp only [NewPaymentsServiceClient, paymentsServiceClient.CancelInvoice, exchangeResult]
  generalize c.Invoke ctx "/paymentspb.PaymentsService/CancelInvoice"
    (.request .CancelInvoice inp) .CancelInvoice default opts s = r
  rcases r with ⟨⟨_ | e, o⟩, s1⟩ <;> rfl

theorem exchangeResult_isSome_iff {m : RPC} (r : Option GoError × Resp m) :
    (exchangeResult r).1.isSome ↔ (exchangeResult r).2 = none := by
  rcases r with ⟨_ | e, o⟩ <;> simp [exchangeResult]

theorem handlerOf_reject [∀ m, Inhabited (Req m)] (m : RPC)
    (srv : PaymentsServiceServer Ctx σ Req Resp) (ctx : Ctx) (dec : Decoder σ Req)
    (icpt : Option (UnaryServerInterceptor Ctx σ Req Resp)) (s : σ)
    (err : GoError) (z : Req m) (s1 : σ) (hdec : dec m default s = ((some err, z), s1)) :
    handlerOf m srv ctx dec icpt s = (.ret .nil (some err), s1) := by
  cases m <;>
    simp [handlerOf, _PaymentsService_AuthorizePayment_Handler,
      _PaymentsService_ConfirmPayment_Handler, _PaymentsService_CreateInvoice_Handler,
      _PaymentsService_AdjustInvoice_Handler, _PaymentsService_PayInvoice_Handler,
      _PaymentsService_CancelInvoice_Handler, hdec]

theorem handlerOf_direct [∀ m, Inhabited (Req m)] (m : RPC)
    (srv : PaymentsServiceServer Ctx σ Req Resp) (ctx : Ctx) (dec : Decoder σ Req) (s : σ)
    (inp : Req m) (s1 : σ) (hdec : dec m default s = ((none, inp), s1)) :
    handlerOf m srv ctx dec none s = toOutcome m (serverMethod srv m ctx (some inp) s1) := by
  cases m <;>
    simp [handlerOf, serverMethod, _PaymentsService_AuthorizePayment_Handler,
      _PaymentsService_ConfirmPayment_Handler, _PaymentsService_CreateInvoice_Handler,
      _PaymentsService_AdjustInvoice_Handler, _PaymentsService_PayInvoice_Handler,
      _PaymentsService_CancelInvoice_Handler, hdec]

theorem handlerOf_passesThrough [∀ m, Inhabited (Req m)] (m : RPC)
    (srv : PaymentsServiceServer Ctx σ Req Resp) (ctx : Ctx) (dec : Decoder σ Req) (s : σ)
    (inp : Req m) (s1 : σ) (hdec : dec m default s = ((none, inp), s1))
    (icpt : UnaryServerInterceptor Ctx σ Req Resp) (before after : Effect Ctx σ Req Resp)
    (hpass : PassesThrough icpt before after) :
    ∃ info : UnaryServerInfo Ctx σ Req Resp, info.Server = srv ∧
      handlerOf m srv ctx dec (some icpt) s
        = (.ret
            (.response m (serverMethod srv m ctx (some inp)
              (before ctx (.request m (some inp)) info s1)).1.1)
            (serverMethod srv m ctx (some inp)
              (before ctx (.request m (some inp)) info s1)).1.2,
           after ctx (.request m (some inp)) info
            (serverMethod srv m ctx (some inp)
              (before ctx (.request m (some inp)) info s1)).2) := by
  cases m
  · exact ⟨⟨srv, "/paymentspb.PaymentsService/AuthorizePayment"⟩, rfl, by
      simp [handlerOf, serverMethod, toOutcome, _PaymentsService_AuthorizePayment_Handler,
        hdec, hpass _ _ _ _ _]⟩
  · exact ⟨⟨srv, "/paymentspb.PaymentsService/ConfirmPayment"⟩, rfl, by
      simp [handlerOf, serverMethod, toOutcome, _PaymentsService_ConfirmPayment_Handler,
        hdec, hpass _ _ _ _ _]⟩
  · exact ⟨⟨srv, "/paymentspb.PaymentsService/CreateInvoice"⟩, rfl, by
      simp [handlerOf, serverMethod, toOutcome, _PaymentsService_CreateInvoice_Handler,
        hdec, hpass _ _ _ _ _]⟩
  · exact ⟨⟨srv, "/paymentspb.PaymentsService/AdjustInvoice"⟩, rfl, by
      simp [handlerOf, serverMethod, toOutcome, _PaymentsService_AdjustInvoice_Handler,
        hdec, hpass _ _ _ _ _]⟩
  · exact ⟨⟨srv, "/paymentspb.PaymentsService/PayInvoice"⟩, rfl, by
      simp [handlerOf, serverMethod, toOutcome, _PaymentsService_PayInvoice_Handler,
        hdec, hpass _ _ _ _ _]⟩
  · exact ⟨⟨srv, "/paymentspb.PaymentsService/CancelInvoice"⟩, rfl, by
      simp [handlerOf, serverMethod, toOutcome, _PaymentsService_CancelInvoice_Handler,
        hdec, hpass _ _ _ _ _]⟩

theorem ret_response_eq_iff {m : RPC} (a b : Option (Resp m) × Option GoError) :
    (Outcome.ret (Any.response m a.1) a.2 : Outcome Req Resp) = .ret (.response m b.1) b.2
      ↔ a = b := by
  constructor
  · intro h
    injection h with h1 h2
    injection h1 with _ h3
    exact Prod.ext h3 h2
  · intro h
    rw [h]

end Lemmas

/-! ### Client stubs -/

/-- C2: every client method of `PaymentsServiceClient` is a single
request/response exchange: on any connection it performs exactly one `Invoke`,
with the caller's context, request and call options unchanged and a fresh
response object to fill; it returns `(nil, err)` when `Invoke` returned the
non-nil error `err`, and otherwise the filled response object with the nil
error; so exactly one of the response and the error is non-nil. -/
theorem paymentsServiceClient_single_exchange {Ctx Opt σ : Type} {Req Resp : RPC → Type}
    [∀ m, Inhabited (Resp m)] (cc : ClientConnInterface Ctx Opt σ Req Resp) :
    SingleExchange .AuthorizePayment "/paymentspb.PaymentsService/AuthorizePayment" cc
        (NewPaymentsServiceClient (recording cc)).AuthorizePayment
    ∧ SingleExchange .ConfirmPayment "/paymentspb.PaymentsService/ConfirmPayment" cc
        (NewPaymentsServiceClient (recording cc)).ConfirmPayment
    ∧ SingleExchange .CreateInvoice "/paymentspb.PaymentsService/CreateInvoice" cc
        (NewPaymentsServiceClient (recording cc)).CreateInvoice
    ∧ SingleExchange .AdjustInvoice "/paymentspb.PaymentsService/AdjustInvoice" cc
        (NewPaymentsServiceClient (recording cc)).AdjustInvoice
    ∧ SingleExchange .PayInvoice "/paymentspb.PaymentsService/PayInvoice" cc
        (NewPaymentsServiceClient (recording cc)).PayInvoice
    ∧ SingleExchange .CancelInvoice "/paymentspb.PaymentsService/CancelInvoice" cc
        (NewPaymentsServiceClient (recording cc)).CancelInvoice := by
  refine ⟨?_, ?_, ?_, ?_, ?_, ?_⟩ <;> intro ctx inp opts s log
  · rw [client_AuthorizePayment_eq]
    exact ⟨rfl, exchangeResult_isSome_iff _⟩
  · rw [client_ConfirmPayment_eq]
    exact ⟨rfl, exchangeResult_isSome_iff _⟩
  · rw [client_CreateInvoice_eq]
    exact ⟨rfl, exchangeResult_isSome_iff _⟩
  · rw [client_AdjustInvoice_eq]
    exact ⟨rfl, exchangeResult_isSome_iff _⟩
  · rw [client_PayInvoice_eq]
    exact ⟨rfl, exchangeResult_isSome_iff _⟩
  · rw [client_CancelInvoice_eq]
    exact ⟨rfl, exchangeResult_isSome_iff _⟩

/-! ### Server handlers -/

/-- C10 (counterexample): the counting interceptor returns `handler(ctx, req)`
for the `ctx` and `req` it was given, after adding 100 to the counter.  Over
the meter server, whose `PayInvoice` answers with the counter, and a decoder
that accepts, the `PayInvoice` handler returns 7 with a nil interceptor and 107
with the counting interceptor: not the same result. -/
theorem passThrough_result_differs :
    PassesThrough countingInterceptor addHundred noEffect
    ∧ fortyDecoder .PayInvoice default 7 = ((none, 40), 7)
    ∧ (handlerOf .PayInvoice meterServer () fortyDecoder none 7).1
      = .ret (.response .PayInvoice (some 7)) none
    ∧ (handlerOf .PayInvoice meterServer () fortyDecoder (some countingInterceptor) 7).1
      = .ret (.response .PayInvoice (some 107)) none
    ∧ (handlerOf .PayInvoice meterServer () fortyDecoder (some countingInterceptor) 7).1
      ≠ (handlerOf .PayInvoice meterServer () fortyDecoder none 7).1 := by
  refine ⟨fun _ _ _ _ _ => rfl, rfl, rfl, rfl, ?_⟩
  show (Outcome.ret (.response .PayInvoice (some 107)) none : Outcome NatMsg NatMsg)
    ≠ .ret (.response .PayInvoice (some 7)) none
  intro h
  injection h with h1 _
  injection h1 with _ h2
  have h3 : (107 : Nat) = 7 := Option.some.inj h2
  exact absurd h3 (by decide)

/-- C10 (amended): for each of the six handlers, every server and every request
`inp` the decode function accepted: with a nil interceptor the handler returns
exactly the response and the error of the server method of the same name for
`ctx` and `inp`, in the world the decode function left; with an interceptor
that passes through it returns exactly the response and the error of that same
server method for that same `ctx` and `inp`, in the world as the interceptor's
`before` effect left it; and this is the result with a nil interceptor exactly
when the server method answers the same in both worlds. -/
theorem handler_dispatch {Ctx σ : Type} {Req Resp : RPC → Type} [∀ m, Inhabited (Req m)]
    (m : RPC) (srv : PaymentsServiceServer Ctx σ Req Resp) (ctx : Ctx) (dec : Decoder σ Req)
    (s : σ) (inp : Req m) (s1 : σ) (hdec : dec m default s = ((none, inp), s1))
    (icpt : UnaryServerInterceptor Ctx σ Req Resp) (before after : Effect Ctx σ Req Resp)
    (hpass : PassesThrough icpt before after) :
    handlerOf m srv ctx dec none s
      = (.ret (.response m (serverMethod srv m ctx (some inp) s1).1.1)
            (serverMethod srv m ctx (some inp) s1).1.2,
         (serverMethod srv m ctx (some inp) s1).2)
    ∧ ∃ info : UnaryServerInfo Ctx σ Req Resp, info.Server = srv
      ∧ handlerOf m srv ctx dec (some icpt) s
        = (.ret
            (.response m (serverMethod srv m ctx (some inp)
              (before ctx (.request m (some inp)) info s1)).1.1)
            (serverMethod srv m ctx (some inp)
              (before ctx (.request m (some inp)) info s1)).1.2,
           after ctx (.request m (some inp)) info
            (serverMethod srv m ctx (some inp)
              (before ctx (.request m (some inp)) info s1)).2)
      ∧ ((handlerOf m srv ctx dec (some icpt) s).1 = (handlerOf m srv ctx dec none s).1
          ↔ (serverMethod srv m ctx (some inp)
                (before ctx (.request m (some inp)) info s1)).1
              = (serverMethod srv m ctx (some inp) s1).1) := by
  have hnone : handlerOf m srv ctx dec none s
      = (.ret (.response m (serverMethod srv m ctx (some inp) s1).1.1)
            (serverMethod srv m ctx (some inp) s1).1.2,
         (serverMethod srv m ctx (some inp) s1).2) :=
    handlerOf_direct m srv ctx dec s inp s1 hdec
  obtain ⟨info, hsrv, hsome⟩ :=
    handlerOf_passesThrough m srv ctx dec s inp s1 hdec icpt before after hpass
  refine ⟨hnone, info, hsrv, hsome, ?_⟩
  rw [hsome, hnone]
  exact ret_response_eq_iff _ _

/-- Witness of C10 (amended): the `CancelInvoice` handler over the meter
server, whose `CancelInvoice` fails, with the decoder that fills in 40 and the
counting interceptor, from counter 7: the server's error comes back on both
paths. -/
theorem handler_dispatch_witness :
    fortyDecoder .CancelInvoice default 7 = ((none, 40), 7)
    ∧ PassesThrough countingInterceptor addHundred noEffect
    ∧ handlerOf .CancelInvoice meterServer () fortyDecoder none 7
        = (.ret (.response .CancelInvoice none)
            (some (GoError.domain ErrorKind.InvalidState)), 8)
    ∧ ∃ info : UnaryServerInfo Unit Nat NatMsg NatMsg, info.Server = meterServer
      ∧ handlerOf .CancelInvoice meterServer () fortyDecoder (some countingInterceptor) 7
        = (.ret (.response .CancelInvoice none)
            (some (GoError.domain ErrorKind.InvalidState)), 108)
      ∧ ((handlerOf .CancelInvoice meterServer () fortyDecoder (some countingInterceptor) 7).1
            = (handlerOf .CancelInvoice meterServer () fortyDecoder none 7).1
          ↔ (serverMethod meterServer .CancelInvoice () (some 40)
                (addHundred () (.request .CancelInvoice (some 40)) info 7)).1
              = (serverMethod meterServer .CancelInvoice () (some 40) 7).1) :=
  ⟨rfl, fun _ _ _ _ _ => rfl,
   (handler_dispatch .CancelInvoice meterServer () fortyDecoder 7 40 7 rfl
      countingInterceptor addHundred noEffect (fun _ _ _ _ _ => rfl)).1,
   (handler_dispatch .CancelInvoice meterServer () fortyDecoder 7 40 7 rfl
      countingInterceptor addHundred noEffect (fun _ _ _ _ _ => rfl)).2⟩

/-- C8 (counterexample): over the tally server with a call log, the decoder
accepts the request 40, and under the swapping interceptor the `CancelInvoice`
handler has the server method called once, with the request 99, which the
decode function never saw. -/
theorem handler_serves_swapped_request :
    fortyDecoder .CancelInvoice default 7 = ((none, 40), 7)
    ∧ handlerOf .CancelInvoice (spying tallyServer) () (besideLog fortyDecoder)
        (some swappingInterceptor) (7, [])
      = (.ret (.response .CancelInvoice (some 105)) none,
         (13, [⟨.CancelInvoice, .request .CancelInvoice (some 99)⟩]))
    ∧ (Any.request .CancelInvoice (some 99) : Any NatMsg NatMsg)
      ≠ .request .CancelInvoice (some 40) := by
  refine ⟨rfl, rfl, ?_⟩
  intro h
  injection h with _ h2
  have h3 : (99 : Nat) = 40 := Option.some.inj h2
  exact absurd h3 (by decide)

/-- C8 (amended): for each of the six handlers: when the decode function
returns a non-nil error, the handler returns the nil response with that same
error and leaves the world as the decode function left it, whatever the server
and the interceptor are, so neither was invoked, and the server's call log is
as before; and when the decode function accepted, with a nil interceptor or
an interceptor that passes through (whatever its own effects on the world of
the server), the server sees exactly one call, of the method of the same name,
with the request the decode function accepted. -/
theorem handler_decode_guard {Ctx σ : Type} {Req Resp : RPC → Type}
    [∀ m, Inhabited (Req m)] (m : RPC) (srv : PaymentsServiceServer Ctx σ Req Resp)
    (ctx : Ctx) (dec : Decoder σ Req) (s : σ) :
    (∀ (icpt : Option (UnaryServerInterceptor Ctx σ Req Resp)) (err : GoError) (z : Req m)
        (s1 : σ), dec m default s = ((some err, z), s1) →
        handlerOf m srv ctx dec icpt s = (.ret .nil (some err), s1))
    ∧ (∀ (log : List (ServerCall Req Resp))
        (icpt : Option (UnaryServerInterceptor Ctx (σ × List (ServerCall Req Resp)) Req Resp))
        (err : GoError) (z : Req m) (s1 : σ), dec m default s = ((some err, z), s1) →
        handlerOf m (spying srv) ctx (besideLog dec) icpt (s, log)
          = (.ret .nil (some err), (s1, log)))
    ∧ (∀ (log : List (ServerCall Req Resp))
        (icpt : Option (UnaryServerInterceptor Ctx (σ × List (ServerCall Req Resp)) Req Resp))
        (inp : Req m) (s1 : σ), dec m default s = ((none, inp), s1) →
        (icpt = none ∨ ∃ i before after, icpt = some i
          ∧ PassesThrough i (besideLogEffect before) (besideLogEffect after)) →
        (handlerOf m (spying srv) ctx (besideLog dec) icpt (s, log)).2.2
          = log ++ [⟨m, .request m (some inp)⟩]) := by
  refine ⟨?_, ?_, ?_⟩
  · intro icpt err z s1 hdec
    exact handlerOf_reject m srv ctx dec icpt s err z s1 hdec
  · intro log icpt err z s1 hdec
    exact handlerOf_reject m (spying srv) ctx (besideLog dec) icpt (s, log) err z (s1, log)
      (by simp [besideLog, hdec])
  · intro log icpt inp s1 hdec hicpt
    have hlift : besideLog dec m default (s, log) = ((none, inp), (s1, log)) := by
      simp [besideLog, hdec]
    rcases hicpt with h | ⟨i, before, after, h, hpass⟩
    · rw [h, handlerOf_direct m (spying srv) ctx (besideLog dec) (s, log) inp (s1, log) hlift]
      cases m <;> rfl
    · obtain ⟨info, _, hsome⟩ := handlerOf_passesThrough m (spying srv) ctx (besideLog dec)
        (s, log) inp (s1, log) hlift i (besideLogEffect before) (besideLogEffect after) hpass
      rw [h, hsome]
      cases m <;> rfl

/-- Witness of C8 (amended): the `CancelInvoice` handler over the tally server
from counter 7.  With a decoder that rejects, under an interceptor that would
panic and move the counter, the error comes back and the counter stays at 7;
with the decoder that fills in 40, under a nil interceptor and under the
counting interceptor alike, the server sees the one call `CancelInvoice(40)`. -/
theorem handler_decode_guard_witness :
    (rejectingDecoder (GoError.other "bad wire") : Decoder Nat NatMsg) .CancelInvoice default 7
      = ((some (GoError.other "bad wire"), 0), 7)
    ∧ handlerOf .CancelInvoice tallyServer () (rejectingDecoder (GoError.other "bad wire"))
        (some loudInterceptor) 7
      = (.ret .nil (some (GoError.other "bad wire")), 7)
    ∧ fortyDecoder .CancelInvoice default 7 = ((none, 40), 7)
    ∧ (handlerOf .CancelInvoice (spying tallyServer) () (besideLog fortyDecoder) none
        (7, [])).2.2
      = [] ++ [⟨.CancelInvoice, .request .CancelInvoice (some 40)⟩]
    ∧ PassesThrough countingBesideLog (besideLogEffect (fun _ _ _ n => n + 100))
        (besideLogEffect (fun _ _ _ n => n))
    ∧ (handlerOf .CancelInvoice (spying tallyServer) () (besideLog fortyDecoder)
        (some countingBesideLog) (7, [])).2.2
      = [] ++ [⟨.CancelInvoice, .request .CancelInvoice (some 40)⟩] :=
  ⟨rfl,
   (handler_decode_guard .CancelInvoice tallyServer ()
      (rejectingDecoder (GoError.other "bad wire")) 7).1 (some loudInterceptor)
      (GoError.other "bad wire") 0 7 rfl,
   rfl,
   (handler_decode_guard .CancelInvoice tallyServer () fortyDecoder 7).2.2 [] none 40 7 rfl
      (Or.inl rfl),
   fun _ _ _ _ _ => rfl,
   (handler_decode_guard .CancelInvoice tallyServer () fortyDecoder 7).2.2 []
      (some countingBesideLog) 40 7 rfl
      (Or.inr ⟨countingBesideLog, fun _ _ _ n => n + 100, fun _ _ _ n => n, rfl,
        fun _ _ _ _ _ => rfl⟩)⟩

/-! ### Routing -/

section RoutingLemmas

variable {Ctx Opt σ : Type} {Req Resp : RPC → Type}

theorem invokedPaths_eq [∀ m, Inhabited (Resp m)] (cc : ClientConnInterface Ctx Opt σ Req Resp)
    (m : RPC) (ctx : Ctx) (inp : Option (Req m)) (opts : List Opt) (s : σ) :
    invokedPaths cc m ctx inp opts s
      = match m with
        | .AuthorizePayment => ["/paymentspb.PaymentsService/AuthorizePayment"]
        | .ConfirmPayment => ["/paymentspb.PaymentsService/ConfirmPayment"]
        | .CreateInvoice => ["/paymentspb.PaymentsService/CreateInvoice"]
        | .AdjustInvoice => ["/paymentspb.PaymentsService/AdjustInvoice"]
        | .PayInvoice => ["/paymentspb.PaymentsService/PayInvoice"]
        | .CancelInvoice => ["/paymentspb.PaymentsService/CancelInvoice"] := by
  cases m
  · simp only [invokedPaths, clientMethod]
    rw [client_AuthorizePayment_eq]
    rfl
  · simp only [invokedPaths, clientMethod]
    rw [client_ConfirmPayment_eq]
    rfl
  · simp only [invokedPaths, clientMethod]
    rw [client_CreateInvoice_eq]
    rfl
  · simp only [invokedPaths, clientMethod]
    rw [client_AdjustInvoice_eq]
    rfl
  · simp only [invokedPaths, clientMethod]
    rw [client_PayInvoice_eq]
    rfl
  · simp only [invokedPaths, clientMethod]
    rw [client_CancelInvoice_eq]
    rfl

end RoutingLemmas

/-- C9: for each of the six procedures, the service descriptor has a method
entry whose handler is the handler of that procedure, and the path the client
stub passes to `Invoke` and the `FullMethod` the handler announces to its
interceptor are both `"/" + ServiceName + "/" + MethodName` of that entry; the
six paths are pairwise distinct. -/
theorem routing_names_agree {Ctx Opt σ τ : Type} {Req Resp : RPC → Type}
    [∀ m, Inhabited (Req m)] [∀ m, Inhabited (Resp m)]
    (cc : ClientConnInterface Ctx Opt σ Req Resp)
    (srv : PaymentsServiceServer Ctx (τ × List String) Req Resp)
    (ctx : Ctx) (opts : List Opt) (s : σ) (t : τ) :
    (∀ (m : RPC) (inp : Option (Req m)),
      ∃ md ∈ (PaymentsService_ServiceDesc :
          ServiceDesc Ctx (τ × List String) Req Resp).Methods,
        md.Handler = handlerOf m
        ∧ invokedPaths cc m ctx inp opts s = [routeOf PaymentsService_ServiceDesc md]
        ∧ announcedFullMethods srv m ctx t = [routeOf PaymentsService_ServiceDesc md])
    ∧ (RPC.all.map (fun m => invokedPaths cc m ctx none opts s)).Nodup := by
  constructor
  · intro m inp
    rw [invokedPaths_eq]
    cases m
    · exact ⟨⟨"AuthorizePayment", _PaymentsService_AuthorizePayment_Handler⟩,
        by simp [PaymentsService_ServiceDesc], rfl, rfl, rfl⟩
    · exact ⟨⟨"ConfirmPayment", _PaymentsService_ConfirmPayment_Handler⟩,
        by simp [PaymentsService_ServiceDesc], rfl, rfl, rfl⟩
    · exact ⟨⟨"CreateInvoice", _PaymentsService_CreateInvoice_Handler⟩,
        by simp [PaymentsService_ServiceDesc], rfl, rfl, rfl⟩
    · exact ⟨⟨"AdjustInvoice", _PaymentsService_AdjustInvoice_Handler⟩,
        by simp [PaymentsService_ServiceDesc], rfl, rfl, rfl⟩
    · exact ⟨⟨"PayInvoice", _PaymentsService_PayInvoice_Handler⟩,
        by simp [PaymentsService_ServiceDesc], rfl, rfl, rfl⟩
    · exact ⟨⟨"CancelInvoice", _PaymentsService_CancelInvoice_Handler⟩,
        by simp [PaymentsService_ServiceDesc], rfl, rfl, rfl⟩
  · simp only [RPC.all, List.map, invokedPaths_eq]
    decide

/-! ### The invoice statements of the specification, put to the code -/

/-- C6 (counterexample): on the valid line-item set `[(widget, 100, USD)]` the
`CreateInvoice` of this repository returns no response and a status error of
code `Unimplemented`, and stores no invoice; so it does not yield an open
invoice with the items' total. -/
theorem createInvoice_claim_fails :
    validLineItems [⟨"widget", 100, "USD"⟩] "USD"
    ∧ @UnimplementedPaymentsServiceServer.CreateInvoice Unit Ledger SpecReq SpecResp ()
        (some (⟨[⟨"widget", 100, "USD"⟩], "USD"⟩ : CreateInvoiceRequest)) []
      = ((none, some (.status .Unimplemented "method CreateInvoice not implemented")), [])
    ∧ ¬ CreateInvoiceYieldsOpenTotal
        (@UnimplementedPaymentsServiceServer.CreateInvoice Unit Ledger SpecReq SpecResp) := by
  have hvalid : validLineItems [⟨"widget", 100, "USD"⟩] "USD" := by
    simp [validLineItems]
  refine ⟨hvalid, rfl, ?_⟩
  intro h
  obtain ⟨resp, led1, heq, _⟩ := h () [⟨"widget", 100, "USD"⟩] "USD" [] hvalid
  have hfst := congrArg (fun r => r.1.1) heq
  simp [UnimplementedPaymentsServiceServer.CreateInvoice] at hfst

/-- C6 (amended): for every valid line-item set, the `CreateInvoice` of this
repository returns no response and the status error of code `Unimplemented`
with message `method CreateInvoice not implemented`, and leaves the ledger as
it was. -/
theorem createInvoice_unimplemented {Ctx : Type} (ctx : Ctx) (items : List LineItem)
    (currency : String) (led : Ledger) (_hvalid : validLineItems items currency) :
    @UnimplementedPaymentsServiceServer.CreateInvoice Ctx Ledger SpecReq SpecResp ctx
        (some (⟨items, currency⟩ : CreateInvoiceRequest)) led
      = ((none, some (.status .Unimplemented "method CreateInvoice not implemented")), led) :=
  rfl

/-- Witness of C6 (amended): the line-item set `[(widget, 100, USD)]` on the
empty ledger. -/
theorem createInvoice_unimplemented_witness :
    validLineItems [⟨"widget", 100, "USD"⟩] "USD"
    ∧ @UnimplementedPaymentsServiceServer.CreateInvoice Unit Ledger SpecReq SpecResp ()
        (some (⟨[⟨"widget", 100, "USD"⟩], "USD"⟩ : CreateInvoiceRequest)) []
      = ((none, some (.status .Unimplemented "method CreateInvoice not implemented")), []) :=
  ⟨by simp [validLineItems],
   createInvoice_unimplemented () [⟨"widget", 100, "USD"⟩] "USD" []
     (by simp [validLineItems])⟩

/-- C7 (counterexample): on the fully paid widget invoice (`amountPaid = 100`)
the `CancelInvoice` of this repository fails with a status error of code
`Unimplemented`, which is of no kind of the specification, so not of kind
`InvalidState`. -/
theorem cancelGuard_claim_fails :
    paidWidgetInvoice ∈ [paidWidgetInvoice] ∧ 0 < paidWidgetInvoice.amountPaid
    ∧ @UnimplementedPaymentsServiceServer.CancelInvoice Unit Ledger SpecReq SpecResp ()
        (some (⟨paidWidgetInvoice.id, paidWidgetInvoice.version⟩ : CancelInvoiceRequest))
        [paidWidgetInvoice]
      = ((none, some (.status .Unimplemented "method CancelInvoice not implemented")),
         [paidWidgetInvoice])
    ∧ (GoError.status .Unimplemented "method CancelInvoice not implemented").kind?
      ≠ some ErrorKind.InvalidState
    ∧ ¬ CancelGuard
        (@UnimplementedPaymentsServiceServer.CancelInvoice Unit Ledger SpecReq SpecResp) := by
  refine ⟨List.mem_singleton.mpr rfl, by decide, rfl, by simp [GoError.kind?], ?_⟩
  intro h
  obtain ⟨e, heq, hkind⟩ := h () [paidWidgetInvoice] paidWidgetInvoice
    (List.mem_singleton.mpr rfl) (by decide)
  have he := congrArg (fun r => r.1.2) heq
  simp [UnimplementedPaymentsServiceServer.CancelInvoice, status.Errorf] at he
  rw [← he] at hkind
  simp [GoError.kind?] at hkind

/-- C7 (amended): for every stored invoice with `amountPaid > 0`, the
`CancelInvoice` of this repository returns no response and the status error of
code `Unimplemented` with message `method CancelInvoice not implemented` (an
error of no kind of the specification), and leaves the ledger, the invoice
with it, as it was. -/
theorem cancelInvoice_unimplemented {Ctx : Type} (ctx : Ctx) (led : Ledger) (inv : Invoice)
    (_hmem : inv ∈ led) (_hpaid : 0 < inv.amountPaid) :
    ∃ e : GoError,
      @UnimplementedPaymentsServiceServer.CancelInvoice Ctx Ledger SpecReq SpecResp ctx
          (some (⟨inv.id, inv.version⟩ : CancelInvoiceRequest)) led
        = ((none, some e), led)
      ∧ e = .status .Unimplemented "method CancelInvoice not implemented"
      ∧ e.code? = some Code.Unimplemented
      ∧ e.kind? = none
      ∧ inv ∈ led :=
  ⟨.status .Unimplemented "method CancelInvoice not implemented", rfl, rfl, rfl, rfl, _hmem⟩

/-- Witness of C7 (amended): the fully paid widget invoice in a ledger of its
own. -/
theorem cancelInvoice_unimplemented_witness :
    paidWidgetInvoice ∈ [paidWidgetInvoice] ∧ 0 < paidWidgetInvoice.amountPaid
    ∧ ∃ e : GoError,
      @UnimplementedPaymentsServiceServer.CancelInvoice Unit Ledger SpecReq SpecResp ()
          (some (⟨paidWidgetInvoice.id, paidWidgetInvoice.version⟩ : CancelInvoiceRequest))
          [paidWidgetInvoice]
        = ((none, some e), [paidWidgetInvoice])
      ∧ e = .status .Unimplemented "method CancelInvoice not implemented"
      ∧ e.code? = some Code.Unimplemented
      ∧ e.kind? = none
      ∧ paidWidgetInvoice ∈ [paidWidgetInvoice] :=
  ⟨List.mem_singleton.mpr rfl, by decide,
   cancelInvoice_unimplemented () [paidWidgetInvoice] paidWidgetInvoice
     (List.mem_singleton.mpr rfl) (by decide)⟩

end paymentspb

end GolangNinja
